import Mathlib

/-!
Shallow embedding of the three-ui layout library core: the DisplayObject
bounds resolver, the dirty-tracking proxy, the redraw scheduler and the
click hit-test dispatcher, translated from src/three-ui/DisplayObject.js,
src/three-ui/anchors.js and the ThreeUI root container module.

Conventions of the embedding:
- JS numbers are modelled as rationals.
- An offset edge value is either a number or a percentage string matching
  the regex in getOffsetInCanvas; the inductive OffsetVal keeps the two
  shapes apart the same way the typeof check in the source does.
- The bounds-parent reference is an index into the flat displayObjects
  list of the root container; a dangling index models a parent that is
  not a DisplayObject instance (the source throws an Error there).
- Recursion through the parent chain is fueled; running out of fuel is
  the embedding of exhausting the JS call stack (UIErr.stackOverflow).
  UIErr.cyclicParent embeds the CyclicParentError named by the spec; no
  function of the embedding ever produces it, mirroring the source.
-/

namespace ThreeUI

/-- Anchor constants, from anchors.js. -/
def anchorCenter : Nat := 1

/-- Anchor constant left, from anchors.js. -/
def anchorLeft : Nat := 2

/-- Anchor constant right, from anchors.js. -/
def anchorRight : Nat := 3

/-- Anchor constant top, from anchors.js. -/
def anchorTop : Nat := 4

/-- Anchor constant bottom, from anchors.js. -/
def anchorBottom : Nat := 5

/-- A resolved rectangle in canvas pixel space. -/
structure Rect where
  x : ℚ
  y : ℚ
  width : ℚ
  height : ℚ
  deriving DecidableEq

/-- One edge value of the offset record: a plain number, or a percentage
string (the source stores the string and converts it in
getOffsetInCanvas). -/
inductive OffsetVal where
  | num (v : ℚ)
  | pct (v : ℚ)
  deriving DecidableEq

/-- The four offset edges of a DisplayObject. -/
structure Offset4 where
  left : OffsetVal
  top : OffsetVal
  right : OffsetVal
  bottom : OffsetVal
  deriving DecidableEq

/-- The four offset edges after percentage resolution. -/
structure ResolvedOffset where
  left : ℚ
  top : ℚ
  right : ℚ
  bottom : ℚ
  deriving DecidableEq

/-- Errors of the embedded core. stackOverflow models exhausting the JS
call stack (fuel 0); typeError models the Error thrown when parent is not
a DisplayObject; cyclicParent embeds the CyclicParentError the spec asks
for, which the source never raises. -/
inductive UIErr where
  | stackOverflow
  | typeError
  | cyclicParent
  deriving DecidableEq

/-- The observable fields of a DisplayObject, as set by the constructor in
DisplayObject.js. The field visible is the backing slot named underscore
visible in the source; the parent-aware getter is visibleF below. The
parent field holds the index of the bounds parent in the flat
displayObjects list of the root container, or none. -/
structure DisplayObject where
  x : ℚ
  y : ℚ
  width : ℚ
  height : ℚ
  rotation : ℚ
  alpha : ℚ
  visible : Bool
  pivot : ℚ × ℚ
  anchor : Nat × Nat
  smoothing : Bool
  stretch : Bool × Bool
  offset : Offset4
  parent : Option Nat
  deriving DecidableEq

/-- The DisplayObject constructor with all optional arguments given:
every field not taken from an argument gets the default of the source
constructor. -/
def mkDisplayObject (x y width height : ℚ) : DisplayObject :=
  { x := x
    y := y
    width := width
    height := height
    rotation := 0
    alpha := 1
    visible := true
    pivot := (1/2, 1/2)
    anchor := (anchorLeft, anchorTop)
    smoothing := true
    stretch := (false, false)
    offset := ⟨.num 0, .num 0, .num 0, .num 0⟩
    parent := none }

/-- The root container state: the flat displayObjects list (list order is
draw order), the logical canvas size, and the dirty flag. -/
structure UI where
  nodes : List DisplayObject
  width : ℚ
  height : ℚ
  shouldReDraw : Bool
  deriving DecidableEq

/-- One percentage-to-number conversion step of getOffsetInCanvas: a
number passes through; a percentage resolves against the width of the
parent bounds (pb is the result of the getParentBounds call the source
makes lazily when it first meets a non-number edge). -/
def resolveOffsetVal (pb : Except UIErr Rect) : OffsetVal → Except UIErr ℚ
  | .num v => Except.ok v
  | .pct v => do
      let b ← pb
      Except.ok (v / 100 * b.width)

/-- getOffsetInCanvas: resolve the four edges, left, top, right, bottom in
the key order of the source object literal. -/
def getOffsetInCanvasF (pb : Except UIErr Rect) (off : Offset4) :
    Except UIErr ResolvedOffset := do
  let l ← resolveOffsetVal pb off.left
  let t ← resolveOffsetVal pb off.top
  let r ← resolveOffsetVal pb off.right
  let b ← resolveOffsetVal pb off.bottom
  Except.ok ⟨l, t, r, b⟩

/-- adjustPositionForAnchor: the source calls getParentBounds
unconditionally, then adjusts each non-stretched axis by its anchor rule;
an anchor value matching no branch leaves the coordinate unchanged. -/
def adjustPositionForAnchorF (pb : Except UIErr Rect) (obj : DisplayObject)
    (x y : ℚ) : Except UIErr (ℚ × ℚ) := do
  let b ← pb
  let x2 :=
    if !obj.stretch.1 then
      if obj.anchor.1 = anchorLeft then b.x + x
      else if obj.anchor.1 = anchorRight then b.x + b.width - x
      else if obj.anchor.1 = anchorCenter then b.x + b.width * (1/2) + x
      else x
    else x
  let y2 :=
    if !obj.stretch.2 then
      if obj.anchor.2 = anchorTop then b.y + y
      else if obj.anchor.2 = anchorBottom then b.y + b.height - y
      else if obj.anchor.2 = anchorCenter then b.y + b.height * (1/2) + y
      else y
    else y
  Except.ok (x2, y2)

/-- adjustPositionForPivot: subtract the raw width and height fields
scaled by the pivot, regardless of stretching. -/
def adjustPositionForPivotF (obj : DisplayObject) (x y : ℚ) : ℚ × ℚ :=
  (x - obj.width * obj.pivot.1, y - obj.height * obj.pivot.2)

/-- The part of determinePositionInCanvas before the final
adjustPositionForPivot call: raw coordinates, replaced on a stretched axis
by parent origin plus start-edge offset, then the anchor adjustment. -/
def determinePrePivotPositionF (pb : Except UIErr Rect)
    (obj : DisplayObject) : Except UIErr (ℚ × ℚ) := do
  let base : ℚ × ℚ := (obj.x, obj.y)
  let pos ←
    if obj.stretch.1 || obj.stretch.2 then do
      let b ← pb
      let off ← getOffsetInCanvasF pb obj.offset
      Except.ok ((if obj.stretch.1 then b.x + off.left else base.1),
                 (if obj.stretch.2 then b.y + off.top else base.2))
    else Except.ok base
  adjustPositionForAnchorF pb obj pos.1 pos.2

/-- determinePositionInCanvas: the pre-pivot pipeline followed by the
pivot adjustment. -/
def determinePositionInCanvasF (pb : Except UIErr Rect)
    (obj : DisplayObject) : Except UIErr (ℚ × ℚ) := do
  let pos ← determinePrePivotPositionF pb obj
  Except.ok (adjustPositionForPivotF obj pos.1 pos.2)

/-- determineDimensionsInCanvas: raw width and height, replaced on a
stretched axis by parent size minus the two resolved edge offsets. -/
def determineDimensionsInCanvasF (pb : Except UIErr Rect)
    (obj : DisplayObject) : Except UIErr (ℚ × ℚ) :=
  if obj.stretch.1 || obj.stretch.2 then do
    let b ← pb
    let off ← getOffsetInCanvasF pb obj.offset
    Except.ok ((if obj.stretch.1 then b.width - off.left - off.right
                else obj.width),
               (if obj.stretch.2 then b.height - off.top - off.bottom
                else obj.height))
  else Except.ok (obj.width, obj.height)

/-- The body of getBounds, as a function of the parent bounds computation
shared by its call sites. -/
def getBoundsBody (pb : Except UIErr Rect) (obj : DisplayObject) :
    Except UIErr Rect := do
  let pos ← determinePositionInCanvasF pb obj
  let dims ← determineDimensionsInCanvasF pb obj
  Except.ok ⟨pos.1, pos.2, dims.1, dims.2⟩

/-- getBounds, fueled: fuel 0 is call-stack exhaustion; otherwise resolve
the parent bounds as getParentBounds does (root canvas rectangle when no
parent, recursive getBounds on the parent, type error when the parent
index names no DisplayObject) and run the body. -/
def getBoundsF (ui : UI) : Nat → DisplayObject → Except UIErr Rect
  | 0, _ => Except.error UIErr.stackOverflow
  | fuel + 1, obj =>
      let pb : Except UIErr Rect :=
        match obj.parent with
        | none => Except.ok ⟨0, 0, ui.width, ui.height⟩
        | some pid =>
            match ui.nodes[pid]? with
            | none => Except.error UIErr.typeError
            | some p => getBoundsF ui fuel p
      getBoundsBody pb obj

/-- getParentBounds as a standalone function (one recursion step of
getBoundsF). -/
def getParentBoundsF (ui : UI) (fuel : Nat) (obj : DisplayObject) :
    Except UIErr Rect :=
  match obj.parent with
  | none => Except.ok ⟨0, 0, ui.width, ui.height⟩
  | some pid =>
      match ui.nodes[pid]? with
      | none => Except.error UIErr.typeError
      | some p => getBoundsF ui fuel p

theorem getBoundsF_succ (ui : UI) (fuel : Nat) (obj : DisplayObject) :
    getBoundsF ui (fuel + 1) obj = getBoundsBody (getParentBoundsF ui fuel obj) obj := rfl

/-- The proxied visible getter of DisplayObject.js: when the node has a
parent, the parent is not the node itself, and the parent reads as not
visible, the getter returns false; otherwise it returns the backing
visible slot. Reading the visibility of the parent goes through the same
getter, hence the fueled recursion: none models a JS call-stack overflow
in the getter chain. The node is addressed by its index so that the
reference comparison of parent against the node itself can be embedded as
index equality. -/
def visibleF (ui : UI) : Nat → Nat → Option Bool
  | 0, _ => none
  | fuel + 1, i =>
      match ui.nodes[i]? with
      | none => none
      | some obj =>
          match obj.parent with
          | none => some obj.visible
          | some pid =>
              if pid = i then some obj.visible
              else
                match visibleF ui fuel pid with
                | none => none
                | some pv => some (if pv then obj.visible else false)

/-- shouldReceiveEvents: returns this.visible, which is the proxied
parent-aware getter. -/
def shouldReceiveEventsF (ui : UI) (fuel : Nat) (i : Nat) : Option Bool :=
  visibleF ui fuel i

/-- isInBoundingBox: inclusive on all four edges. -/
def isInBoundingBox (x y boundX boundY boundWidth boundHeight : ℚ) : Bool :=
  decide (x ≥ boundX) && decide (x ≤ boundX + boundWidth) &&
  decide (y ≥ boundY) && decide (y ≤ boundY + boundHeight)

/-- A registered click listener: the index of its DisplayObject in the
flat node list, and its callback, modelled as a state transformer on the
root UI state (a callback may mutate any node field). -/
structure Listener where
  objIndex : Nat
  callback : UI → UI

/-- The matching decision of the clickHandler loop body for one listener:
skip when shouldReceiveEvents is false, resolve the bounds, then test the
point against the bounding box. -/
def clickMatchDecision (ui : UI) (fuel : Nat) (coords : ℚ × ℚ) (i : Nat) :
    Except UIErr Bool :=
  match shouldReceiveEventsF ui fuel i with
  | none => Except.error UIErr.stackOverflow
  | some false => Except.ok false
  | some true =>
      match ui.nodes[i]? with
      | none => Except.error UIErr.typeError
      | some obj => do
          let b ← getBoundsF ui fuel obj
          Except.ok (isInBoundingBox coords.1 coords.2 b.x b.y b.width b.height)

/-- Phase one of clickHandler: walk the registered listeners in order and
collect those whose DisplayObject matches into the callback queue. All
decisions read the same UI state; no callback has run yet. -/
def clickMatchesF (ui : UI) (fuel : Nat) (coords : ℚ × ℚ) :
    List Listener → Except UIErr (List Listener)
  | [] => Except.ok []
  | l :: rest => do
      let m ← clickMatchDecision ui fuel coords l.objIndex
      let tail ← clickMatchesF ui fuel coords rest
      Except.ok (if m then l :: tail else tail)

/-- clickHandler after coordinate conversion: build the queue from the
incoming UI state, then invoke the queued callbacks in registration
order, each seeing the state left by the previous one. Returns the
object indices of the listeners that fired, in firing order, with the
final state. -/
def clickHandlerF (ui : UI) (fuel : Nat) (coords : ℚ × ℚ)
    (listeners : List Listener) : Except UIErr (List Nat × UI) := do
  let queue ← clickMatchesF ui fuel coords listeners
  Except.ok (queue.map (fun l => l.objIndex),
             queue.foldl (fun s l => l.callback s) ui)

/-- One intercepted write of observeDirtyProperties: compare the new
value against the current read value; on shallow inequality raise the
dirty flag of the root, otherwise leave the flag alone; the backing slot
always receives the new value. Returns (new backing value, new flag). -/
def trackedWrite {V : Type} [DecidableEq V] (cur newVal : V) (flag : Bool) :
    V × Bool :=
  (newVal, if cur ≠ newVal then true else flag)

/-- One intercepted read of observeDirtyProperties: pass-through to the
backing slot. -/
def trackedRead {V : Type} (backing : V) : V := backing

/-- The observable effect of DisplayObject.render within a draw pass:
nothing when the proxied visible getter reads false, otherwise the draw
callback invocation with the resolved bounds of the node (the canvas
context transforms for rotation, alpha and smoothing are out of scope). -/
def renderF (ui : UI) (fuel : Nat) (i : Nat) :
    Except UIErr (Option (Nat × Rect)) :=
  match ui.nodes[i]? with
  | none => Except.error UIErr.typeError
  | some obj =>
      match visibleF ui fuel i with
      | none => Except.error UIErr.stackOverflow
      | some false => Except.ok none
      | some true => do
          let b ← getBoundsF ui fuel obj
          Except.ok (some (i, b))

/-- The observable outcome of one ThreeUI.draw call: whether the canvas
was cleared, the draw-callback invocations in list order, and the state
after the pass. -/
structure DrawPass where
  cleared : Bool
  calls : List (Nat × Rect)
  ui : UI
  deriving DecidableEq

/-- The render loop of ThreeUI.draw over the display-object indices, in
list order; a throw from any render aborts the whole pass. -/
def renderAllF (ui : UI) (fuel : Nat) :
    List Nat → Except UIErr (List (Option (Nat × Rect)))
  | [] => Except.ok []
  | i :: rest => do
      let o ← renderF ui fuel i
      let os ← renderAllF ui fuel rest
      Except.ok (o :: os)

/-- ThreeUI.draw: a no-op when the dirty flag is clear; otherwise clear
the canvas, render every display object in list order, and clear the
dirty flag at the end of the pass. -/
def drawF (ui : UI) (fuel : Nat) : Except UIErr DrawPass :=
  if !ui.shouldReDraw then Except.ok ⟨false, [], ui⟩
  else do
    let outs ← renderAllF ui fuel (List.range ui.nodes.length)
    Except.ok ⟨true, outs.reduceOption, { ui with shouldReDraw := false }⟩

/-- The width computation of ThreeUI.resize: the logical height times the
aspect ratio of the game canvas. -/
def resizeWidth (uiHeight gameCanvasWidth gameCanvasHeight : ℚ) : ℚ :=
  uiHeight * (gameCanvasWidth / gameCanvasHeight)

/-- ThreeUI.resize on the embedded state: derive the logical width from
the game canvas aspect ratio and force a redraw. -/
def resizeF (ui : UI) (gameCanvasWidth gameCanvasHeight : ℚ) : UI :=
  { ui with
    width := resizeWidth ui.height gameCanvasWidth gameCanvasHeight
    shouldReDraw := true }

instance {ε α : Type} [DecidableEq ε] [DecidableEq α] : DecidableEq (Except ε α) := fun a b =>
  match a, b with
  | Except.error e, Except.error f =>
      if h : e = f then Decidable.isTrue (congrArg Except.error h)
      else Decidable.isFalse (fun hh => h (Except.error.inj hh))
  | Except.error _, Except.ok _ => Decidable.isFalse (fun hh => Except.noConfusion hh)
  | Except.ok _, Except.error _ => Decidable.isFalse (fun hh => Except.noConfusion hh)
  | Except.ok v, Except.ok w =>
      if h : v = w then Decidable.isTrue (congrArg Except.ok h)
      else Decidable.isFalse (fun hh => h (Except.ok.inj hh))

/-- The value an offset edge resolves to against a parent rectangle of
width w: numbers pass through, percentages scale the parent width. -/
def offsetEdgeValue (w : ℚ) : OffsetVal → ℚ
  | .num v => v
  | .pct v => v / 100 * w

theorem resolveOffsetVal_ok (b : Rect) (v : OffsetVal) :
    resolveOffsetVal (Except.ok b) v = Except.ok (offsetEdgeValue b.width v) := by
  cases v <;> rfl

theorem getOffsetInCanvasF_ok (b : Rect) (off : Offset4) :
    getOffsetInCanvasF (Except.ok b) off =
      Except.ok ⟨offsetEdgeValue b.width off.left, offsetEdgeValue b.width off.top,
                 offsetEdgeValue b.width off.right, offsetEdgeValue b.width off.bottom⟩ := by
  obtain ⟨l, t, r, bo⟩ := off
  cases l <;> cases t <;> cases r <;> cases bo <;> rfl

/-- Claim C4: for every node and each of the four offset edges, a numeric
offset passes through unchanged and a percentage value p resolves to
p / 100 times the WIDTH of the parent bounds, uniformly for left, top,
right and bottom (the vertical edges do not use the parent height). -/
theorem offsets_resolve_against_parent_width (b : Rect) (off : Offset4) :
    getOffsetInCanvasF (Except.ok b) off =
      Except.ok ⟨offsetEdgeValue b.width off.left, offsetEdgeValue b.width off.top,
                 offsetEdgeValue b.width off.right, offsetEdgeValue b.width off.bottom⟩ ∧
    (∀ v : ℚ, offsetEdgeValue b.width (OffsetVal.num v) = v) ∧
    (∀ p : ℚ, offsetEdgeValue b.width (OffsetVal.pct p) = p / 100 * b.width) :=
  ⟨getOffsetInCanvasF_ok b off, fun _ => rfl, fun _ => rfl⟩

/-- Claim C5: on a stretched axis, the resolved size is the parent size on
that axis minus the resolved start-edge offset minus the resolved end-edge
offset, and the pre-pivot position is the parent origin plus the resolved
start-edge offset; the raw coordinate, raw size and anchor of that axis do
not appear in either result. On the x axis the claimed instance
offset.right of fifty percent with parent width W gives
W minus offset.left minus W / 2. -/
theorem stretched_axis_resolution (b : Rect) (obj : DisplayObject) :
    (obj.stretch.1 = true →
      (determineDimensionsInCanvasF (Except.ok b) obj).map (fun d => d.1) =
        Except.ok (b.width - offsetEdgeValue b.width obj.offset.left
          - offsetEdgeValue b.width obj.offset.right) ∧
      (determinePrePivotPositionF (Except.ok b) obj).map (fun p => p.1) =
        Except.ok (b.x + offsetEdgeValue b.width obj.offset.left)) ∧
    (obj.stretch.2 = true →
      (determineDimensionsInCanvasF (Except.ok b) obj).map (fun d => d.2) =
        Except.ok (b.height - offsetEdgeValue b.width obj.offset.top
          - offsetEdgeValue b.width obj.offset.bottom) ∧
      (determinePrePivotPositionF (Except.ok b) obj).map (fun p => p.2) =
        Except.ok (b.y + offsetEdgeValue b.width obj.offset.top)) := by
  constructor
  · intro hx
    constructor
    · simp [determineDimensionsInCanvasF, hx, getOffsetInCanvasF_ok, Except.map,
        bind, Except.bind]
    · simp [determinePrePivotPositionF, adjustPositionForAnchorF, hx,
        getOffsetInCanvasF_ok, Except.map, bind, Except.bind]
  · intro hy
    constructor
    · cases hx : obj.stretch.1 <;>
        simp [determineDimensionsInCanvasF, hx, hy, getOffsetInCanvasF_ok, Except.map,
          bind, Except.bind]
    · cases hx : obj.stretch.1 <;>
        simp [determinePrePivotPositionF, adjustPositionForAnchorF, hx, hy,
          getOffsetInCanvasF_ok, Except.map, bind, Except.bind]

theorem adjustPositionForAnchorF_error (e : UIErr) (obj : DisplayObject) (x y : ℚ) :
    adjustPositionForAnchorF (Except.error e) obj x y = Except.error e := rfl

theorem determinePrePivotPositionF_error (e : UIErr) (obj : DisplayObject) :
    determinePrePivotPositionF (Except.error e) obj = Except.error e := by
  unfold determinePrePivotPositionF
  cases h : (obj.stretch.1 || obj.stretch.2) <;>
    simp [h, adjustPositionForAnchorF_error, bind, Except.bind]

theorem determinePositionInCanvasF_error (e : UIErr) (obj : DisplayObject) :
    determinePositionInCanvasF (Except.error e) obj = Except.error e := by
  simp [determinePositionInCanvasF, determinePrePivotPositionF_error, bind, Except.bind]

theorem getBoundsBody_error (e : UIErr) (obj : DisplayObject) :
    getBoundsBody (Except.error e) obj = Except.error e := by
  simp [getBoundsBody, determinePositionInCanvasF_error, bind, Except.bind]

theorem getParentBoundsF_root (ui : UI) (fuel : Nat) (obj : DisplayObject)
    (hp : obj.parent = none) :
    getParentBoundsF ui fuel obj = Except.ok ⟨0, 0, ui.width, ui.height⟩ := by
  simp [getParentBoundsF, hp]

theorem getParentBoundsF_miss (ui : UI) (fuel : Nat) (obj : DisplayObject) (pid : Nat)
    (hp : obj.parent = some pid) (hn : ui.nodes[pid]? = none) :
    getParentBoundsF ui fuel obj = Except.error UIErr.typeError := by
  simp [getParentBoundsF, hp, hn]

theorem getParentBoundsF_hit (ui : UI) (fuel : Nat) (obj : DisplayObject) (pid : Nat)
    (p : DisplayObject) (hp : obj.parent = some pid) (hn : ui.nodes[pid]? = some p) :
    getParentBoundsF ui fuel obj = getBoundsF ui fuel p := by
  simp [getParentBoundsF, hp, hn]

/-- Fuel monotonicity: once getBounds succeeds at some call-stack budget,
any larger budget produces the same rectangle. -/
theorem getBoundsF_mono (ui : UI) :
    ∀ {fuel fuel2 : Nat}, fuel ≤ fuel2 → ∀ {obj : DisplayObject} {r : Rect},
      getBoundsF ui fuel obj = Except.ok r → getBoundsF ui fuel2 obj = Except.ok r := by
  intro fuel
  induction fuel with
  | zero => intro fuel2 _ obj r h; exact absurd h (by simp [getBoundsF])
  | succ f ih =>
      intro fuel2 hle obj r h
      obtain ⟨f2, rfl⟩ : ∃ f2, fuel2 = f2 + 1 :=
        ⟨fuel2 - 1, (Nat.succ_pred_eq_of_pos (Nat.lt_of_lt_of_le (Nat.succ_pos f) hle)).symm⟩
      have hf : f ≤ f2 := Nat.le_of_succ_le_succ hle
      rw [getBoundsF_succ] at h ⊢
      cases hp : obj.parent with
      | none =>
          rw [getParentBoundsF_root ui f obj hp] at h
          rwa [getParentBoundsF_root ui f2 obj hp]
      | some pid =>
          cases hn : ui.nodes[pid]? with
          | none =>
              rw [getParentBoundsF_miss ui f obj pid hp hn] at h
              rwa [getParentBoundsF_miss ui f2 obj pid hp hn]
          | some p =>
              rw [getParentBoundsF_hit ui f obj pid p hp hn] at h
              rw [getParentBoundsF_hit ui f2 obj pid p hp hn]
              cases hpb : getBoundsF ui f p with
              | error e => rw [hpb, getBoundsBody_error] at h; exact absurd h (by simp)
              | ok rp => rw [hpb] at h; rw [ih hf hpb]; exact h

/-- Claim C8: getBounds is deterministic and free of hidden state: two
evaluations over the same UI state that both complete (any call-stack
budgets) return the same rectangle, so it is safe to call any number of
times per frame. -/
theorem getBounds_deterministic (ui : UI) (fuel fuel2 : Nat)
    (obj : DisplayObject) (r r2 : Rect)
    (h : getBoundsF ui fuel obj = Except.ok r)
    (h2 : getBoundsF ui fuel2 obj = Except.ok r2) : r = r2 := by
  rcases Nat.le_total fuel fuel2 with hle | hle
  · have := getBoundsF_mono ui hle h
    rw [this] at h2
    exact Except.ok.inj h2
  · have := getBoundsF_mono ui hle h2
    rw [this] at h
    exact (Except.ok.inj h).symm

/-- A two-node parent cycle: each node has the other as bounds parent. -/
def cycNodeA : DisplayObject := { mkDisplayObject 0 0 10 10 with parent := some 1 }

/-- Second node of the two-node parent cycle. -/
def cycNodeB : DisplayObject := { mkDisplayObject 20 20 10 10 with parent := some 0 }

/-- Root state holding the two-node parent cycle. -/
def uiCyc : UI := { nodes := [cycNodeA, cycNodeB], width := 1280, height := 720, shouldReDraw := true }

/-- Claim C1: on a cyclic parent chain, getBounds never raises a
CyclicParentError; for every call-stack budget the recursion through
getParentBounds consumes the whole budget and dies by stack exhaustion
(the source has no cycle guard). -/
theorem cyclic_parent_exhausts_stack :
    ∀ fuel : Nat,
      getBoundsF uiCyc fuel cycNodeA = Except.error UIErr.stackOverflow ∧
      getBoundsF uiCyc fuel cycNodeB = Except.error UIErr.stackOverflow := by
  intro fuel
  induction fuel with
  | zero => exact ⟨rfl, rfl⟩
  | succ f ih =>
      constructor
      · rw [getBoundsF_succ,
          getParentBoundsF_hit uiCyc f cycNodeA 1 cycNodeB rfl rfl,
          ih.2, getBoundsBody_error]
      · rw [getBoundsF_succ,
          getParentBoundsF_hit uiCyc f cycNodeB 0 cycNodeA rfl rfl,
          ih.1, getBoundsBody_error]

/-- Claim C3: a tracked write of a shallow-equal value leaves the dirty
flag untouched, a shallow-different value always raises it, the backing
slot always receives the written value and reads pass the backing value
through; draw is a no-op when the flag is clear and, when it is set,
completes the pass and clears the flag to false at its end. -/
theorem dirty_tracking_contract (V : Type) [DecidableEq V] (cur newVal : V)
    (flag : Bool) (ui : UI) (fuel : Nat) :
    (newVal = cur → (trackedWrite cur newVal flag).2 = flag) ∧
    (¬ newVal = cur → (trackedWrite cur newVal flag).2 = true) ∧
    (trackedWrite cur newVal flag).1 = newVal ∧
    trackedRead cur = cur ∧
    (ui.shouldReDraw = false → drawF ui fuel = Except.ok ⟨false, [], ui⟩) ∧
    (ui.shouldReDraw = true → ∀ dp : DrawPass, drawF ui fuel = Except.ok dp →
      dp.cleared = true ∧ dp.ui.shouldReDraw = false) := by
  refine ⟨?_, ?_, rfl, rfl, ?_, ?_⟩
  · intro h; subst h; simp [trackedWrite]
  · intro h
    have h2 : cur ≠ newVal := fun hh => h hh.symm
    simp [trackedWrite, h2]
  · intro h; simp [drawF, h]
  · intro h dp hdp
    rw [drawF, h] at hdp
    simp only [Bool.not_true, Bool.false_eq_true, if_false] at hdp
    cases hE : renderAllF ui fuel (List.range ui.nodes.length) with
    | error e => rw [hE] at hdp; simp [bind, Except.bind] at hdp
    | ok outs =>
        rw [hE] at hdp
        simp only [bind, Except.bind] at hdp
        have := Except.ok.inj hdp
        rw [← this]
        exact ⟨rfl, rfl⟩

/-- A root state with no nodes and a clear dirty flag. -/
def uiCleanW : UI := { nodes := [], width := 100, height := 100, shouldReDraw := false }

/-- A root state with no nodes and a set dirty flag. -/
def uiDirtyW : UI := { nodes := [], width := 100, height := 100, shouldReDraw := true }

/-- The draw pass produced from uiDirtyW. -/
def dpDirtyW : DrawPass := ⟨true, [], { uiDirtyW with shouldReDraw := false }⟩

theorem dirty_tracking_contract_witness :
    (trackedWrite (5 : Nat) 5 false).2 = false ∧
    (trackedWrite (5 : Nat) 7 false).2 = true ∧
    (trackedWrite (5 : Nat) 7 false).1 = 7 ∧
    trackedRead (5 : Nat) = 5 ∧
    drawF uiCleanW 3 = Except.ok ⟨false, [], uiCleanW⟩ ∧
    (dpDirtyW.cleared = true ∧ dpDirtyW.ui.shouldReDraw = false) := by
  have h1 := dirty_tracking_contract Nat 5 5 false uiCleanW 3
  have h2 := dirty_tracking_contract Nat 5 7 false uiDirtyW 3
  exact ⟨h1.1 rfl, h2.2.1 (by decide), h2.2.2.1, h1.2.2.2.1,
    h1.2.2.2.2.1 rfl, h2.2.2.2.2.2 rfl dpDirtyW (by decide)⟩

/-- The node of the C7 round trip: stretch on both axes, all offsets 0,
every other field at the DisplayObject constructor defaults. -/
def stretchNode7 : DisplayObject := { mkDisplayObject 0 0 0 0 with stretch := (true, true) }

/-- The C7 root state: logical height 720, resized against a 1280 by 720
game canvas. -/
def ui7 : UI := resizeF { nodes := [stretchNode7], width := 0, height := 720, shouldReDraw := true } 1280 720

/-- Claim C7: with logical height 720 over a 1280 by 720 host surface the
derived logical width is 1280, and a node stretched on both axes with all
offsets 0 resolves to exactly the full logical canvas rectangle. -/
theorem roundtrip_full_canvas :
    resizeWidth 720 1280 720 = 1280 ∧
    ui7.width = 1280 ∧ ui7.height = 720 ∧
    getBoundsF ui7 1 stretchNode7 = Except.ok ⟨0, 0, 1280, 720⟩ := by
  refine ⟨by norm_num [resizeWidth], by norm_num [ui7, resizeF, resizeWidth], rfl, ?_⟩
  norm_num [ui7, resizeF, resizeWidth, stretchNode7, mkDisplayObject, getBoundsF,
    getBoundsBody, determinePositionInCanvasF, determinePrePivotPositionF,
    adjustPositionForAnchorF, adjustPositionForPivotF, determineDimensionsInCanvasF,
    getOffsetInCanvasF, resolveOffsetVal, bind, Except.bind]

/-- Rectangle constructor: sets the fill color (not part of the layout
state) and runs the DisplayObject constructor with the given geometry
(the source defaults width and height to 1 when absent, applied by the
caller here). -/
def mkRectangle (x y width height : ℚ) : DisplayObject := mkDisplayObject x y width height

/-- Sprite constructor: resolves the asset reference, then runs the
DisplayObject constructor with the given geometry (width and height fall
back to the natural asset or sheet-frame size, resolved by the caller
here). -/
def mkSprite (x y width height : ℚ) : DisplayObject := mkDisplayObject x y width height

/-- Text constructor: sets text fields (outside the layout state), then
runs the DisplayObject constructor with no width and height arguments, so
both default to 0. -/
def mkText (x y : ℚ) : DisplayObject := mkDisplayObject x y 0 0

/-- BitmapText constructor: parses the sheet and measures the text (that
width and height are passed resolved here), runs the DisplayObject
constructor, then immediately overrides the pivot to (0, 0). -/
def mkBitmapText (x y width height : ℚ) : DisplayObject :=
  { mkDisplayObject x y width height with pivot := (0, 0) }

/-- Claim C9: every factory-created node starts with pivot (0.5, 0.5),
anchor (left, top), stretch (false, false), all four offsets 0, rotation
0, alpha 1, visible true and no bounds parent - except BitmapText, whose
constructor immediately overrides the pivot to (0, 0) and keeps the other
defaults. -/
theorem factory_defaults (x y w h : ℚ) :
    ((mkRectangle x y w h).pivot = (1/2, 1/2) ∧
      (mkSprite x y w h).pivot = (1/2, 1/2) ∧
      (mkText x y).pivot = (1/2, 1/2) ∧
      (mkBitmapText x y w h).pivot = (0, 0)) ∧
    ((mkRectangle x y w h).anchor = (anchorLeft, anchorTop) ∧
      (mkSprite x y w h).anchor = (anchorLeft, anchorTop) ∧
      (mkText x y).anchor = (anchorLeft, anchorTop) ∧
      (mkBitmapText x y w h).anchor = (anchorLeft, anchorTop)) ∧
    ((mkRectangle x y w h).stretch = (false, false) ∧
      (mkSprite x y w h).stretch = (false, false) ∧
      (mkText x y).stretch = (false, false) ∧
      (mkBitmapText x y w h).stretch = (false, false)) ∧
    ((mkRectangle x y w h).offset = ⟨.num 0, .num 0, .num 0, .num 0⟩ ∧
      (mkSprite x y w h).offset = ⟨.num 0, .num 0, .num 0, .num 0⟩ ∧
      (mkText x y).offset = ⟨.num 0, .num 0, .num 0, .num 0⟩ ∧
      (mkBitmapText x y w h).offset = ⟨.num 0, .num 0, .num 0, .num 0⟩) ∧
    ((mkRectangle x y w h).rotation = 0 ∧ (mkSprite x y w h).rotation = 0 ∧
      (mkText x y).rotation = 0 ∧ (mkBitmapText x y w h).rotation = 0) ∧
    ((mkRectangle x y w h).alpha = 1 ∧ (mkSprite x y w h).alpha = 1 ∧
      (mkText x y).alpha = 1 ∧ (mkBitmapText x y w h).alpha = 1) ∧
    ((mkRectangle x y w h).visible = true ∧ (mkSprite x y w h).visible = true ∧
      (mkText x y).visible = true ∧ (mkBitmapText x y w h).visible = true) ∧
    ((mkRectangle x y w h).parent = none ∧ (mkSprite x y w h).parent = none ∧
      (mkText x y).parent = none ∧ (mkBitmapText x y w h).parent = none) :=
  ⟨⟨rfl, rfl, rfl, rfl⟩, ⟨rfl, rfl, rfl, rfl⟩, ⟨rfl, rfl, rfl, rfl⟩,
    ⟨rfl, rfl, rfl, rfl⟩, ⟨rfl, rfl, rfl, rfl⟩, ⟨rfl, rfl, rfl, rfl⟩,
    ⟨rfl, rfl, rfl, rfl⟩, ⟨rfl, rfl, rfl, rfl⟩⟩

theorem clickMatchesF_ids (ui : UI) (fuel : Nat) (coords : ℚ × ℚ) :
    ∀ (ls ls2 : List Listener),
      ls.map Listener.objIndex = ls2.map Listener.objIndex →
      (clickMatchesF ui fuel coords ls).map (fun q => q.map Listener.objIndex) =
        (clickMatchesF ui fuel coords ls2).map (fun q => q.map Listener.objIndex) := by
  intro ls
  induction ls with
  | nil =>
      intro ls2 h
      have h2 : ls2 = [] := by
        cases ls2 with
        | nil => rfl
        | cons a t => exact absurd h.symm (by simp)
      subst h2; rfl
  | cons l rest ih =>
      intro ls2 h
      cases ls2 with
      | nil => exact absurd h (by simp)
      | cons l2 rest2 =>
          simp only [List.map_cons, List.cons.injEq] at h
          obtain ⟨hidx, hrest⟩ := h
          simp only [clickMatchesF, bind, Except.bind, hidx]
          cases hd : clickMatchDecision ui fuel coords l2.objIndex with
          | error e => rfl
          | ok m =>
              have hih := ih rest2 hrest
              cases h1 : clickMatchesF ui fuel coords rest with
              | error e =>
                  cases h2 : clickMatchesF ui fuel coords rest2 with
                  | error e2 =>
                      rw [h1, h2] at hih
                      simp only [Except.map] at hih
                      rw [Except.error.inj hih]
                  | ok t2 => rw [h1, h2] at hih; simp [Except.map] at hih
              | ok t =>
                  cases h2 : clickMatchesF ui fuel coords rest2 with
                  | error e2 => rw [h1, h2] at hih; simp [Except.map] at hih
                  | ok t2 =>
                      rw [h1, h2] at hih
                      simp only [Except.map] at hih
                      have ht := Except.ok.inj hih
                      cases m <;> simp [Except.map, ht, hidx]

/-- Claim C2: the set and order of callbacks fired for one event are
determined entirely by the UI state when the event arrives: phase one
collects the matching listeners into a queue before any callback runs, so
the fired list (and any dispatch error) depends only on the state, the
point, and which display objects are registered - never on what the
callbacks themselves do to the state. -/
theorem clickHandler_queue_before_invoke (ui : UI) (fuel : Nat) (coords : ℚ × ℚ)
    (ls ls2 : List Listener)
    (h : ls.map Listener.objIndex = ls2.map Listener.objIndex) :
    (clickHandlerF ui fuel coords ls).map (fun r => r.1) =
      (clickHandlerF ui fuel coords ls2).map (fun r => r.1) := by
  have hq := clickMatchesF_ids ui fuel coords ls ls2 h
  simp only [clickHandlerF, bind, Except.bind]
  cases h1 : clickMatchesF ui fuel coords ls with
  | error e =>
      cases h2 : clickMatchesF ui fuel coords ls2 with
      | error e2 =>
          rw [h1, h2] at hq
          simp only [Except.map] at hq
          rw [Except.error.inj hq]
      | ok t2 => rw [h1, h2] at hq; simp [Except.map] at hq
  | ok t =>
      cases h2 : clickMatchesF ui fuel coords ls2 with
      | error e2 => rw [h1, h2] at hq; simp [Except.map] at hq
      | ok t2 =>
          rw [h1, h2] at hq
          simp only [Except.map] at hq
          have := Except.ok.inj hq
          simp [Except.map, this]

/-- Box A of the C2 scenario: bounds (0, 0, 100, 100). -/
def nodeA2 : DisplayObject := { mkDisplayObject 0 0 100 100 with pivot := (0, 0) }

/-- Box B of the C2 scenario: bounds (50, 50, 100, 100). -/
def nodeB2 : DisplayObject := { mkDisplayObject 50 50 100 100 with pivot := (0, 0) }

/-- Root state of the C2 scenario with boxes A (index 0) and B (index 1). -/
def uiAB : UI := { nodes := [nodeA2, nodeB2], width := 1280, height := 720, shouldReDraw := false }

/-- The callback of the A listener in the C2 scenario: sets the visible
field of B to false through the dirty proxy (backing slot written, dirty
flag raised since the value changed). -/
def hideB : UI → UI := fun s =>
  { s with nodes := s.nodes.set 1 { nodeB2 with visible := false }, shouldReDraw := true }

theorem clickHandler_queue_before_invoke_witness :
    (clickHandlerF uiAB 5 (60, 60) [⟨0, hideB⟩, ⟨1, fun s => s⟩]).map (fun r => r.1) =
      (clickHandlerF uiAB 5 (60, 60) [⟨0, fun s => s⟩, ⟨1, fun s => s⟩]).map (fun r => r.1) ∧
    (clickHandlerF uiAB 5 (60, 60) [⟨0, hideB⟩, ⟨1, fun s => s⟩]).map (fun r => r.1) =
      Except.ok [0, 1] := by
  constructor
  · exact clickHandler_queue_before_invoke uiAB 5 (60, 60) _ _ rfl
  · norm_num [uiAB, nodeA2, nodeB2, mkDisplayObject, clickHandlerF, clickMatchesF,
      clickMatchDecision, shouldReceiveEventsF, visibleF, isInBoundingBox,
      getBoundsF, getBoundsBody, determinePositionInCanvasF, determinePrePivotPositionF,
      adjustPositionForAnchorF, adjustPositionForPivotF, determineDimensionsInCanvasF,
      getOffsetInCanvasF, resolveOffsetVal, anchorLeft, anchorTop, anchorCenter,
      anchorRight, anchorBottom, bind, Except.bind, Except.map]

/-- The invisible parent of the C6 counterexample (index 0). -/
def invisParent6 : DisplayObject :=
  { mkDisplayObject 0 0 200 200 with pivot := (0, 0), visible := false }

/-- The child of the C6 counterexample (index 1): its own visible backing
flag is true, its bounds parent is the invisible node 0. -/
def child6 : DisplayObject :=
  { mkDisplayObject 10 10 50 50 with pivot := (0, 0), parent := some 0 }

/-- Root state of the C6 counterexample. -/
def ui6 : UI := { nodes := [invisParent6, child6], width := 1280, height := 720, shouldReDraw := false }

/-- Claim C6 counterexample: the child has its own visible flag true and
the click point (20, 20) lies inside its resolved bounds
(10, 10, 50, 50), yet shouldReceiveEvents reads false through the
parent-aware visible getter and the listener does not fire - eligibility
is not decided by the own flag alone. -/
theorem eligibility_not_own_flag_counterexample :
    child6.visible = true ∧
    getBoundsF ui6 5 child6 = Except.ok ⟨10, 10, 50, 50⟩ ∧
    isInBoundingBox 20 20 10 10 50 50 = true ∧
    shouldReceiveEventsF ui6 5 1 = some false ∧
    (clickHandlerF ui6 5 (20, 20) [⟨1, fun s => s⟩]).map (fun r => r.1) =
      Except.ok [] := by
  refine ⟨rfl, ?_, by norm_num [isInBoundingBox], by decide, ?_⟩
  · norm_num [ui6, invisParent6, child6, mkDisplayObject, getBoundsF,
      getBoundsBody, determinePositionInCanvasF, determinePrePivotPositionF,
      adjustPositionForAnchorF, adjustPositionForPivotF, determineDimensionsInCanvasF,
      getOffsetInCanvasF, resolveOffsetVal, anchorLeft, anchorTop, anchorCenter,
      anchorRight, anchorBottom, bind, Except.bind]
  · norm_num [ui6, invisParent6, child6, mkDisplayObject, clickHandlerF,
      clickMatchesF, clickMatchDecision, shouldReceiveEventsF, visibleF,
      bind, Except.bind, Except.map]

/-- Claim C6 as amended: hit-test eligibility is decided by the proxied
visible getter, which is transitive up the bounds-parent chain: for a
node with a parent other than itself, shouldReceiveEvents is the
effective visibility of the parent AND the own backing flag of the node, so a
node whose own flag is true is still skipped under an invisible parent
chain. -/
theorem shouldReceiveEvents_parent_transitive (ui : UI) (fuel i pid : Nat)
    (obj : DisplayObject) (pv : Bool)
    (h1 : ui.nodes[i]? = some obj) (h2 : obj.parent = some pid)
    (h3 : ¬ pid = i) (h4 : visibleF ui fuel pid = some pv) :
    shouldReceiveEventsF ui (fuel + 1) i = some (pv && obj.visible) := by
  simp only [shouldReceiveEventsF, visibleF, h1, h2, h3, h4, if_false]
  cases pv <;> simp

theorem shouldReceiveEvents_parent_transitive_witness :
    ui6.nodes[1]? = some child6 ∧ child6.parent = some 0 ∧
    ¬ (0 : Nat) = 1 ∧ visibleF ui6 4 0 = some false ∧
    shouldReceiveEventsF ui6 5 1 = some (false && child6.visible) := by
  refine ⟨rfl, rfl, by decide, by decide, ?_⟩
  exact shouldReceiveEvents_parent_transitive ui6 4 1 0 child6 false rfl rfl
    (by decide) (by decide)

/-- Parent of the C8 witness chain (index 0). -/
def chainParentW : DisplayObject := { mkDisplayObject 100 100 200 200 with pivot := (0, 0) }

/-- Child of the C8 witness chain (index 1). -/
def chainChildW : DisplayObject :=
  { mkDisplayObject 10 10 50 50 with pivot := (0, 0), parent := some 0 }

/-- Root state of the C8 witness chain. -/
def uiChainW : UI :=
  { nodes := [chainParentW, chainChildW], width := 1280, height := 720, shouldReDraw := false }

theorem getBounds_deterministic_witness :
    getBoundsF uiChainW 2 chainChildW = Except.ok ⟨110, 110, 50, 50⟩ ∧
    getBoundsF uiChainW 9 chainChildW = Except.ok ⟨110, 110, 50, 50⟩ ∧
    (⟨110, 110, 50, 50⟩ : Rect) = ⟨110, 110, 50, 50⟩ := by
  have h1 : getBoundsF uiChainW 2 chainChildW = Except.ok ⟨110, 110, 50, 50⟩ := by
    norm_num [uiChainW, chainParentW, chainChildW, mkDisplayObject, getBoundsF,
      getBoundsBody, determinePositionInCanvasF, determinePrePivotPositionF,
      adjustPositionForAnchorF, adjustPositionForPivotF, determineDimensionsInCanvasF,
      getOffsetInCanvasF, resolveOffsetVal, anchorLeft, anchorTop, anchorCenter,
      anchorRight, anchorBottom, bind, Except.bind]
  have h2 : getBoundsF uiChainW 9 chainChildW = Except.ok ⟨110, 110, 50, 50⟩ := by
    norm_num [uiChainW, chainParentW, chainChildW, mkDisplayObject, getBoundsF,
      getBoundsBody, determinePositionInCanvasF, determinePrePivotPositionF,
      adjustPositionForAnchorF, adjustPositionForPivotF, determineDimensionsInCanvasF,
      getOffsetInCanvasF, resolveOffsetVal, anchorLeft, anchorTop, anchorCenter,
      anchorRight, anchorBottom, bind, Except.bind]
  exact ⟨h1, h2, getBounds_deterministic uiChainW 2 9 chainChildW _ _ h1 h2⟩

theorem renderF_stuck (ui : UI) (fuel i : Nat) (obj : DisplayObject)
    (hn : ui.nodes[i]? = some obj) (hv : visibleF ui fuel i = none) :
    renderF ui fuel i = Except.error UIErr.stackOverflow := by
  simp [renderF, hn, hv]

theorem renderF_invisible (ui : UI) (fuel i : Nat) (obj : DisplayObject)
    (hn : ui.nodes[i]? = some obj) (hv : visibleF ui fuel i = some false) :
    renderF ui fuel i = Except.ok none := by
  simp [renderF, hn, hv]

theorem renderF_visible (ui : UI) (fuel i : Nat) (obj : DisplayObject) (b : Rect)
    (hn : ui.nodes[i]? = some obj) (hv : visibleF ui fuel i = some true)
    (hb : getBoundsF ui fuel obj = Except.ok b) :
    renderF ui fuel i = Except.ok (some (i, b)) := by
  simp [renderF, hn, hv, hb, bind, Except.bind]

theorem renderF_bounds_error (ui : UI) (fuel i : Nat) (obj : DisplayObject) (e : UIErr)
    (hn : ui.nodes[i]? = some obj) (hv : visibleF ui fuel i = some true)
    (hb : getBoundsF ui fuel obj = Except.error e) :
    renderF ui fuel i = Except.error e := by
  simp [renderF, hn, hv, hb, bind, Except.bind]

/-- The indices of the draw callbacks invoked by a completed render loop
are exactly the indices whose proxied visible getter read true, in list
order. -/
theorem renderAllF_fst (ui : UI) (fuel : Nat) :
    ∀ (idxs : List Nat) (outs : List (Option (Nat × Rect))),
      (∀ j ∈ idxs, j < ui.nodes.length) →
      renderAllF ui fuel idxs = Except.ok outs →
      outs.reduceOption.map Prod.fst =
        idxs.filter (fun j => visibleF ui fuel j == some true) := by
  intro idxs
  induction idxs with
  | nil =>
      intro outs _ h
      have h2 : ([] : List (Option (Nat × Rect))) = outs := Except.ok.inj h
      subst h2; rfl
  | cons j rest ih =>
      intro outs hlt h
      have hj : j < ui.nodes.length := hlt j (by simp)
      have hrestlt : ∀ k ∈ rest, k < ui.nodes.length := fun k hk => hlt k (by simp [hk])
      obtain ⟨obj, hn⟩ : ∃ obj, ui.nodes[j]? = some obj :=
        ⟨ui.nodes[j], List.getElem?_eq_getElem hj⟩
      simp only [renderAllF, bind, Except.bind] at h
      cases hv : visibleF ui fuel j with
      | none =>
          rw [renderF_stuck ui fuel j obj hn hv] at h
          exact absurd h (by simp)
      | some v =>
          cases v with
          | false =>
              rw [renderF_invisible ui fuel j obj hn hv] at h
              cases hrec : renderAllF ui fuel rest with
              | error e => rw [hrec] at h; exact absurd h (by simp)
              | ok os =>
                  rw [hrec] at h
                  have h2 : (none :: os : List (Option (Nat × Rect))) = outs :=
                    Except.ok.inj h
                  subst h2
                  rw [List.reduceOption_cons_of_none,
                    List.filter_cons_of_neg (by simp [hv]), ih os hrestlt hrec]
          | true =>
              cases hb : getBoundsF ui fuel obj with
              | error e =>
                  rw [renderF_bounds_error ui fuel j obj e hn hv hb] at h
                  exact absurd h (by simp)
              | ok b =>
                  rw [renderF_visible ui fuel j obj b hn hv hb] at h
                  cases hrec : renderAllF ui fuel rest with
                  | error e => rw [hrec] at h; exact absurd h (by simp)
                  | ok os =>
                      rw [hrec] at h
                      have h2 : (some (j, b) :: os) = outs := Except.ok.inj h
                      subst h2
                      rw [List.reduceOption_cons_of_some, List.map_cons,
                        List.filter_cons_of_pos (by simp [hv]), ih os hrestlt hrec]

/-- Claim C10: in a draw pass that runs (dirty flag set) and completes, a
node whose proxied visible getter reads false is skipped entirely - its
render contributes no draw call and resolves no bounds - while the pass
still clears the canvas, invokes the draw callbacks of exactly the
effectively visible nodes in list order, and ends with the dirty flag
false. -/
theorem draw_skips_invisible (ui : UI) (fuel i : Nat) (obj : DisplayObject)
    (dp : DrawPass)
    (hd : ui.shouldReDraw = true) (h : drawF ui fuel = Except.ok dp)
    (hobj : ui.nodes[i]? = some obj) (hv : visibleF ui fuel i = some false) :
    renderF ui fuel i = Except.ok none ∧
    dp.cleared = true ∧ dp.ui.shouldReDraw = false ∧
    dp.calls.map Prod.fst =
      (List.range ui.nodes.length).filter (fun j => visibleF ui fuel j == some true) ∧
    i ∉ dp.calls.map Prod.fst := by
  rw [drawF, hd] at h
  simp only [Bool.not_true, Bool.false_eq_true, if_false] at h
  cases hrec : renderAllF ui fuel (List.range ui.nodes.length) with
  | error e => rw [hrec] at h; simp [bind, Except.bind] at h
  | ok outs =>
      rw [hrec] at h
      simp only [bind, Except.bind] at h
      have hfst : outs.reduceOption.map Prod.fst =
          (List.range ui.nodes.length).filter (fun j => visibleF ui fuel j == some true) :=
        renderAllF_fst ui fuel (List.range ui.nodes.length) outs
          (fun j hj => List.mem_range.1 hj) hrec
      have hdp := Except.ok.inj h
      subst hdp
      refine ⟨renderF_invisible ui fuel i obj hobj hv, rfl, rfl, hfst, ?_⟩
      rw [hfst]
      intro hmem
      have h3 := List.of_mem_filter hmem
      rw [hv] at h3
      exact absurd h3 (by decide)

/-- Visible node 0 of the C10 witness pass. -/
def vis10a : DisplayObject := { mkDisplayObject 0 0 100 100 with pivot := (0, 0) }

/-- Invisible node 1 of the C10 witness pass. -/
def invis10 : DisplayObject := { mkDisplayObject 5 5 50 50 with visible := false }

/-- Visible node 2 of the C10 witness pass. -/
def vis10b : DisplayObject := { mkDisplayObject 10 20 30 40 with pivot := (0, 0) }

/-- Root state of the C10 witness pass, dirty flag set. -/
def ui10 : UI := { nodes := [vis10a, invis10, vis10b], width := 1280, height := 720, shouldReDraw := true }

/-- The draw pass produced from ui10. -/
def dp10 : DrawPass :=
  ⟨true, [(0, ⟨0, 0, 100, 100⟩), (2, ⟨10, 20, 30, 40⟩)], { ui10 with shouldReDraw := false }⟩

theorem draw_skips_invisible_witness :
    renderF ui10 3 1 = Except.ok none ∧
    dp10.cleared = true ∧ dp10.ui.shouldReDraw = false ∧
    dp10.calls.map Prod.fst =
      (List.range ui10.nodes.length).filter (fun j => visibleF ui10 3 j == some true) ∧
    1 ∉ dp10.calls.map Prod.fst := by
  have hrange : List.range ui10.nodes.length = [0, 1, 2] := rfl
  have hdraw : drawF ui10 3 = Except.ok dp10 := by
    rw [drawF]
    norm_num [ui10, vis10a, invis10, vis10b, dp10, mkDisplayObject, hrange,
      renderAllF, renderF, visibleF, getBoundsF, getBoundsBody,
      determinePositionInCanvasF, determinePrePivotPositionF,
      adjustPositionForAnchorF, adjustPositionForPivotF, determineDimensionsInCanvasF,
      getOffsetInCanvasF, resolveOffsetVal, anchorLeft, anchorTop, anchorCenter,
      anchorRight, anchorBottom, bind, Except.bind, List.reduceOption,
      List.filterMap_cons, List.filterMap_nil]
  exact draw_skips_invisible ui10 3 1 invis10 dp10 rfl hdraw rfl (by decide)

/-- Parent rectangle of the C5 witness. -/
def rb5 : Rect := ⟨0, 0, 1280, 720⟩

/-- Node of the C5 witness: stretched on both axes, offsets
left 10, top 20, right fifty percent, bottom 30; raw geometry present and
ignored. -/
def obj5 : DisplayObject :=
  { mkDisplayObject 7 8 90 60 with
    stretch := (true, true)
    offset := ⟨.num 10, .num 20, .pct 50, .num 30⟩ }

theorem stretched_axis_resolution_witness :
    (determineDimensionsInCanvasF (Except.ok rb5) obj5).map (fun d => d.1) =
      Except.ok 630 ∧
    (determinePrePivotPositionF (Except.ok rb5) obj5).map (fun p => p.1) =
      Except.ok 10 ∧
    (determineDimensionsInCanvasF (Except.ok rb5) obj5).map (fun d => d.2) =
      Except.ok 670 ∧
    (determinePrePivotPositionF (Except.ok rb5) obj5).map (fun p => p.2) =
      Except.ok 20 := by
  have h := stretched_axis_resolution rb5 obj5
  have hx := h.1 rfl
  have hy := h.2 rfl
  refine ⟨?_, ?_, ?_, ?_⟩
  · rw [hx.1]; norm_num [rb5, obj5, mkDisplayObject, offsetEdgeValue]
  · rw [hx.2]; norm_num [rb5, obj5, mkDisplayObject, offsetEdgeValue]
  · rw [hy.1]; norm_num [rb5, obj5, mkDisplayObject, offsetEdgeValue]
  · rw [hy.2]; norm_num [rb5, obj5, mkDisplayObject, offsetEdgeValue]

end ThreeUI
